import Mathlib

/-!
Verification development for a chat-based server monitor bot
(`server_monitor_bot.py`). The Python source is shallowly embedded:

* `get_server_uptime` (source lines 53–88) becomes a pure function over an
  environment recording the outcomes of the external `neofetch` / `uptime`
  subprocess invocations, with the two regex searches modelled directly on
  character lists.
* `update_stats` (source lines 98–138), the periodic publisher loop body,
  becomes a pure step function from the tracked-message state and a tick
  environment (channel resolution, fetch/edit/send outcomes) to the new
  state plus the list of chat-API calls performed.
* `create_progress_bar` (source lines 232–236) becomes a function on
  rational percentages mirroring Python `int()` truncation and string
  repetition.
* The embed accent colors of the formatter and commands (lines 163–168,
  238–243, 255–259, 274–278, 304–308, 338–342, 371–375) become a color map.
-/

namespace ServerMonitor

/-! ### Subprocess outcomes

Python's `subprocess.run` either returns a completed process (we keep its
`stdout`) or raises.  The source's outer handler (line 71) catches exactly
`(subprocess.SubprocessError, FileNotFoundError)`; an exception of any other
class — e.g. `PermissionError` when the tool file exists but is not
executable, which `subprocess.run` can raise and which is neither a
`SubprocessError` nor a `FileNotFoundError` — is modelled by `otherError`. -/

inductive SubprocResult where
  | ok (stdout : String)
  | subprocessError
  | fileNotFoundError
  | otherError
  deriving DecidableEq, Repr

/-- Environment for one call of `get_server_uptime`: the outcome of each
external command it may run, and `platform.system()`. -/
structure UptimeEnv where
  neofetch : SubprocResult
  platformSystem : String
  uptimeDashP : SubprocResult
  uptimeMac : SubprocResult
  deriving DecidableEq, Repr

/-- Python `str.strip()`: drop leading and trailing whitespace. -/
def pyIsSpace (c : Char) : Bool :=
  c = ' ' || c = '\t' || c = '\n' || c = '\r' || c = '\x0b' || c = '\x0c'

def pyStripList (l : List Char) : List Char :=
  ((l.dropWhile pyIsSpace).reverse.dropWhile pyIsSpace).reverse

def pyStrip (s : String) : String :=
  ⟨pyStripList s.data⟩

/-- Model of `re.search(r'Uptime: (.+)', output)`: leftmost position where the literal
`"Uptime: "` occurs followed by at least one non-newline character; the group
is the maximal run of non-newline characters after the literal. -/
def findUptimeMatch : List Char → Option (List Char)
  | [] => none
  | c :: cs =>
    if "Uptime: ".data.isPrefixOf (c :: cs) then
      let grp := ((c :: cs).drop 8).takeWhile (fun d => d ≠ '\n')
      if grp.isEmpty then findUptimeMatch cs else some grp
    else findUptimeMatch cs

/-- Index of the first character equal to `,` or `\n` in `l`. -/
def firstStopIdx (l : List Char) : Option Nat :=
  l.findIdx? (fun d => d = ',' || d = '\n')

/-- At a position where `"up "` just matched, `re`'s lazy `(.+?)(,|\n)`
matches iff the next character exists and is not a newline and some later
character is `,` or `\n`; the group runs up to the first such terminator
(characters strictly between are automatically non-newline, `\n` being
itself a terminator). -/
def upGroupFrom : List Char → Option (List Char)
  | [] => none
  | c :: cs =>
    if c = '\n' then none
    else
      match firstStopIdx cs with
      | some j => some (c :: cs.take j)
      | none => none

/-- Model of `re.search(r'up (.+?)(,|\n)', output)`: scan start positions left to
right; at each occurrence of the literal `"up "` try the lazy group. -/
def findUpMatch : List Char → Option (List Char)
  | [] => none
  | c :: cs =>
    if "up ".data.isPrefixOf (c :: cs) then
      match upGroupFrom ((c :: cs).drop 3) with
      | some g => some g
      | none => findUpMatch cs
    else findUpMatch cs

/-- Index of the first `,` in `l` reachable without crossing a newline. -/
def firstCommaNoNl : List Char → Option Nat
  | [] => none
  | d :: ds =>
    if d = ',' then some 0
    else if d = '\n' then none
    else (firstCommaNoNl ds).map (· + 1)

/-- Lazy group of `re.search(r'up (.+?),', s)` at a matched `"up "`:
at least one non-newline character, then the first `,` not preceded by a
newline. -/
def upCommaGroupFrom : List Char → Option (List Char)
  | [] => none
  | c :: cs =>
    if c = '\n' then none
    else
      match firstCommaNoNl cs with
      | some j => some (c :: cs.take j)
      | none => none

/-- Model of `re.search(r'up (.+?),', output)` (the macOS fallback pattern). -/
def findUpCommaMatch : List Char → Option (List Char)
  | [] => none
  | c :: cs =>
    if "up ".data.isPrefixOf (c :: cs) then
      match upCommaGroupFrom ((c :: cs).drop 3) with
      | some g => some g
      | none => findUpCommaMatch cs
    else findUpCommaMatch cs

/-- Sentinel returned when `neofetch` ran but neither pattern matched
(source line 70). -/
def fmtUnknownSentinel : String := "Unknown (neofetch available but format not recognized)"

/-- Sentinel returned when the whole fallback chain fails (source line 88). -/
def unknownSentinel : String := "Unknown (neofetch not available)"

/-- The fallback block of `get_server_uptime` (source lines 73–88), entered
when the `neofetch` call raised one of the two caught exception classes.
Any exception inside the inner `try` is caught by `except Exception`. -/
def uptimeFallback (env : UptimeEnv) : String :=
  if env.platformSystem = "Linux" then
    match env.uptimeDashP with
    | .ok s => (pyStrip s).replace "up " ""
    | _ => unknownSentinel
  else if env.platformSystem = "Darwin" then
    match env.uptimeMac with
    | .ok s =>
      match findUpCommaMatch s.data with
      | some g => pyStrip ⟨g⟩
      | none => unknownSentinel
    | _ => unknownSentinel
  else unknownSentinel

/-- The function `get_server_uptime` (source lines 53–88).  `Except.error ()` marks an
exception propagating to the caller: the outer handler catches only
`subprocess.SubprocessError` and `FileNotFoundError`, so `otherError` from
the `neofetch` invocation escapes. -/
def get_server_uptime (env : UptimeEnv) : Except Unit String :=
  match env.neofetch with
  | .ok output =>
    match findUptimeMatch output.data with
    | some g => .ok (pyStrip ⟨g⟩)
    | none =>
      match findUpMatch output.data with
      | some g => .ok (pyStrip ⟨g⟩)
      | none => .ok fmtUnknownSentinel
  | .subprocessError => .ok (uptimeFallback env)
  | .fileNotFoundError => .ok (uptimeFallback env)
  | .otherError => .error ()

/-- External commands `get_server_uptime` invokes. -/
inductive ExtCall where
  | neofetchCmd
  | uptimeDashPCmd
  | uptimeMacCmd
  deriving DecidableEq, Repr

/-- The sequence of external commands actually invoked during one call of
`get_server_uptime`: `neofetch` always; the platform `uptime` command only
inside the exception handler (lines 71–85), i.e. only when the `neofetch`
invocation raised one of the two caught classes. -/
def uptimeCalls (env : UptimeEnv) : List ExtCall :=
  match env.neofetch with
  | .ok _ => [.neofetchCmd]
  | .otherError => [.neofetchCmd]
  | _ =>
    if env.platformSystem = "Linux" then [.neofetchCmd, .uptimeDashPCmd]
    else if env.platformSystem = "Darwin" then [.neofetchCmd, .uptimeMacCmd]
    else [.neofetchCmd]

/-! ### Publisher loop (`update_stats`, source lines 98–138)

The loop body is embedded as a pure step function.  Its mutable state is
the global `monitor_message_id` (`None` at startup), modelled as
`Option Nat`; Python's `if monitor_message_id:` is the truthiness test,
false for `None` and for `0`.  The chat API calls made in a tick and their
outcomes are drawn from a tick environment. -/

/-- The discriminated chat-API exception classes (`discord.NotFound`,
`discord.Forbidden`, `discord.HTTPException`).  `NotFound` and `Forbidden`
are subclasses of `HTTPException` in discord.py; `httpErr` stands for any
`HTTPException` that is neither of the two specific ones. -/
inductive ExcKind where
  | notFound
  | forbidden
  | httpErr
  deriving DecidableEq, Repr

/-- Outcome of `channel.fetch_message` or `message.edit`. -/
inductive CallRes where
  | ok
  | exc (k : ExcKind)
  deriving DecidableEq, Repr

/-- Outcome of `channel.send`: on success the new message's id. -/
inductive SendRes where
  | ok (id : Nat)
  | exc (k : ExcKind)
  deriving DecidableEq, Repr

/-- Environment of one tick: whether `bot.get_channel` finds the channel,
and the outcome each chat-API call would have if made (at most one send
occurs per tick, so a single send outcome suffices). -/
structure TickEnv where
  resolves : Bool
  fetchRes : CallRes
  editRes : CallRes
  sendRes : SendRes
  deriving DecidableEq, Repr

/-- A chat-API call performed (attempted) during a tick. -/
inductive Action where
  | fetchMsg (id : Nat)
  | editMsg (id : Nat)
  | sendMsg
  deriving DecidableEq, Repr

/-- Result of one tick: the new `monitor_message_id`, the chat-API calls
attempted in order, and whether an exception escaped the task body
(only possible for a failure of the recovery send inside the
`except discord.NotFound:` handler, which no sibling clause catches). -/
structure TickResult where
  state : Option Nat
  actions : List Action
  raised : Bool
  deriving DecidableEq, Repr

/-- Python truthiness of `monitor_message_id`. -/
def pyTruthy : Option Nat → Bool
  | none => false
  | some n => n != 0

/-- One execution of the `update_stats` task body (source lines 98–138).
`channelId` is the configured monitor channel id; `st` is the global
`monitor_message_id` on entry. -/
def update_stats (channelId : Nat) (st : Option Nat) (env : TickEnv) : TickResult :=
  if channelId = 0 then ⟨st, [], false⟩
  else if env.resolves = false then ⟨st, [], false⟩
  else if pyTruthy st then
    let mid := st.getD 0
    match env.fetchRes with
    | .exc .notFound =>
      match env.sendRes with
      | .ok nid => ⟨some nid, [.fetchMsg mid, .sendMsg], false⟩
      | .exc _ => ⟨st, [.fetchMsg mid, .sendMsg], true⟩
    | .exc .forbidden => ⟨st, [.fetchMsg mid], false⟩
    | .exc .httpErr => ⟨st, [.fetchMsg mid], false⟩
    | .ok =>
      match env.editRes with
      | .ok => ⟨st, [.fetchMsg mid, .editMsg mid], false⟩
      | .exc .notFound =>
        match env.sendRes with
        | .ok nid => ⟨some nid, [.fetchMsg mid, .editMsg mid, .sendMsg], false⟩
        | .exc _ => ⟨st, [.fetchMsg mid, .editMsg mid, .sendMsg], true⟩
      | .exc .forbidden => ⟨st, [.fetchMsg mid, .editMsg mid], false⟩
      | .exc .httpErr => ⟨st, [.fetchMsg mid, .editMsg mid], false⟩
  else
    match env.sendRes with
    | .ok nid => ⟨some nid, [.sendMsg], false⟩
    | .exc _ => ⟨st, [.sendMsg], false⟩

/-- Run consecutive ticks, threading the tracked-message state, and collect
each tick's action list. -/
def runTicks (channelId : Nat) (st : Option Nat) : List TickEnv → Option Nat × List (List Action)
  | [] => (st, [])
  | e :: es =>
    let r := update_stats channelId st e
    let rest := runTicks channelId r.state es
    (rest.1, r.actions :: rest.2)

/-! ### Progress bar (`create_progress_bar`, source lines 232–236) -/

/-- Python `int()` on a rational: truncation toward zero. -/
def pyInt (q : ℚ) : ℤ := if 0 ≤ q then ⌊q⌋ else ⌈q⌉

/-- Python `c * n` for a one-character string: empty for `n ≤ 0`. -/
def pyRepeat (c : Char) (n : ℤ) : List Char := List.replicate n.toNat c

/-- The function `create_progress_bar(percent, length=10)`:
`filled_length = int(length * percent / 100)`;
`bar = '█' * filled_length + '░' * (length - filled_length)`. -/
def create_progress_bar (percent : ℚ) (length : ℕ := 10) : String :=
  let filled_length : ℤ := pyInt ((length : ℚ) * percent / 100)
  ⟨pyRepeat '█' filled_length ++ pyRepeat '░' ((length : ℤ) - filled_length)⟩

/-! ### Embed accent colors -/

/-- The modes of the presentation formatter. -/
inductive Mode where
  | full
  | cpu
  | memory
  | disk
  | network
  | uptime
  deriving DecidableEq, Repr

/-- The `color=` literal of the embed constructed for each mode:
`create_stats_embed` (line 166, `0x1E90FF`), `!cpu` (line 276, `0x1E90FF`),
`!memory` (line 306, `0xFF69B4`), `!disk` (line 340, `0xFFD700`),
`!network` (line 373, `0x8A2BE2`), `!uptime` (line 257, `0xFFA500`). -/
def embedColor : Mode → Nat
  | .full => 0x1E90FF
  | .cpu => 0x1E90FF
  | .memory => 0xFF69B4
  | .disk => 0xFFD700
  | .network => 0x8A2BE2
  | .uptime => 0xFFA500

/-- The `!stats` command overrides the full embed's color (line 242):
`embed.color = 0x32CD32`. -/
def statsCommandColor : Nat := 0x32CD32

/-- Accent color of the reply each command actually displays: `!stats`
shows the full embed recolored `0x32CD32`; every other mode shows its
embed's own color. -/
def commandReplyColor : Mode → Nat
  | .full => statsCommandColor
  | m => embedColor m

/-! ### Shared lemmas -/

lemma pyInt_of_nonneg (q : ℚ) (h : 0 ≤ q) : pyInt q = ⌊q⌋ := if_pos h

lemma bar_arg_nonneg (p : ℚ) (L : ℕ) (h0 : 0 ≤ p) : 0 ≤ (L : ℚ) * p / 100 := by
  positivity

lemma bar_floor_le (p : ℚ) (L : ℕ) (h100 : p ≤ 100) : ⌊(L : ℚ) * p / 100⌋ ≤ (L : ℤ) := by
  have hx : (L : ℚ) * p / 100 ≤ (L : ℚ) := by
    rw [div_le_iff₀ (by norm_num)]
    have := mul_le_mul_of_nonneg_left h100 (Nat.cast_nonneg (α := ℚ) L)
    linarith
  calc ⌊(L : ℚ) * p / 100⌋ ≤ ⌊(L : ℚ)⌋ := Int.floor_le_floor hx
    _ = (L : ℤ) := Int.floor_natCast L

lemma bar_le_floor (p : ℚ) (L : ℕ) (h100 : 100 ≤ p) : (L : ℤ) ≤ ⌊(L : ℚ) * p / 100⌋ := by
  have hx : (L : ℚ) ≤ (L : ℚ) * p / 100 := by
    rw [le_div_iff₀ (by norm_num)]
    have := mul_le_mul_of_nonneg_left h100 (Nat.cast_nonneg (α := ℚ) L)
    linarith
  calc (L : ℤ) = ⌊(L : ℚ)⌋ := (Int.floor_natCast L).symm
    _ ≤ ⌊(L : ℚ) * p / 100⌋ := Int.floor_le_floor hx

lemma string_mk_length (l : List Char) : (String.mk l).length = l.length := rfl

/-! ### Claim theorems -/

/-- C5: for every percent `p ∈ [0,100]` and every bar length `L`, the
progress-bar renderer returns a string of exactly `L` glyphs, of which the
first `⌊L·p/100⌋` are the filled glyph `█` and the remaining
`L - ⌊L·p/100⌋` are the empty glyph `░`. -/
theorem progress_bar_in_range (p : ℚ) (L : ℕ) (h0 : 0 ≤ p) (h100 : p ≤ 100) :
    (create_progress_bar p L).data =
      List.replicate (⌊(L : ℚ) * p / 100⌋).toNat '█' ++
        List.replicate (L - (⌊(L : ℚ) * p / 100⌋).toNat) '░' ∧
    (create_progress_bar p L).length = L := by
  have hx0 : 0 ≤ (L : ℚ) * p / 100 := bar_arg_nonneg p L h0
  have hfle : ⌊(L : ℚ) * p / 100⌋ ≤ (L : ℤ) := bar_floor_le p L h100
  have hf0 : 0 ≤ ⌊(L : ℚ) * p / 100⌋ := Int.floor_nonneg.mpr hx0
  have hsub : ((L : ℤ) - ⌊(L : ℚ) * p / 100⌋).toNat = L - (⌊(L : ℚ) * p / 100⌋).toNat := by
    omega
  constructor
  · show pyRepeat '█' (pyInt ((L : ℚ) * p / 100)) ++
        pyRepeat '░' ((L : ℤ) - pyInt ((L : ℚ) * p / 100)) = _
    rw [pyInt_of_nonneg _ hx0, pyRepeat, pyRepeat, hsub]
  · show (String.mk (pyRepeat '█' (pyInt ((L : ℚ) * p / 100)) ++
        pyRepeat '░' ((L : ℤ) - pyInt ((L : ℚ) * p / 100)))).length = L
    rw [string_mk_length, List.length_append, pyInt_of_nonneg _ hx0, pyRepeat, pyRepeat,
      List.length_replicate, List.length_replicate]
    omega

/-- Witness for C5 at percent 45, length 10: four filled glyphs, six empty. -/
theorem progress_bar_in_range_witness :
    (0 : ℚ) ≤ 45 ∧ (45 : ℚ) ≤ 100 ∧
    ((create_progress_bar 45 10).data =
      List.replicate (⌊((10 : ℕ) : ℚ) * 45 / 100⌋).toNat '█' ++
        List.replicate (10 - (⌊((10 : ℕ) : ℚ) * 45 / 100⌋).toNat) '░' ∧
    (create_progress_bar 45 10).length = 10) :=
  ⟨by norm_num, by norm_num, progress_bar_in_range 45 10 (by norm_num) (by norm_num)⟩

/-- C10 counterexample: at percent `101 > 100` and length 10 the renderer
returns `int(10·101/100) = 10` glyphs, a string of exactly the bar length,
not strictly longer. -/
theorem progress_bar_101_not_longer :
    (100 : ℚ) < 101 ∧ (create_progress_bar 101 10).length = 10 := by
  have h : pyInt (((10 : ℕ) : ℚ) * 101 / 100) = 10 := by
    rw [pyInt, if_pos (by norm_num), Int.floor_eq_iff]
    norm_num
  refine ⟨by norm_num, ?_⟩
  show (String.mk (pyRepeat '█' (pyInt (((10 : ℕ) : ℚ) * 101 / 100)) ++
      pyRepeat '░' (((10 : ℕ) : ℤ) - pyInt (((10 : ℕ) : ℚ) * 101 / 100)))).length = 10
  rw [string_mk_length, List.length_append, h, pyRepeat, pyRepeat,
    List.length_replicate, List.length_replicate]
  rfl

/-- C10 amended: for percent strictly greater than 100 the renderer emits
`int(L·percent/100)` filled glyphs and zero empty glyphs, so the output
length is `⌊L·percent/100⌋`, which is at least `L` but not always strictly
greater (percent 101 with length 10 yields exactly 10 glyphs). -/
theorem progress_bar_over_100 (p : ℚ) (L : ℕ) (h : 100 < p) :
    (create_progress_bar p L).data = List.replicate (⌊(L : ℚ) * p / 100⌋).toNat '█' ∧
    (create_progress_bar p L).length = (⌊(L : ℚ) * p / 100⌋).toNat ∧
    L ≤ (create_progress_bar p L).length := by
  have h0 : 0 ≤ p := le_trans (by norm_num) (le_of_lt h)
  have hx0 : 0 ≤ (L : ℚ) * p / 100 := bar_arg_nonneg p L h0
  have hLf : (L : ℤ) ≤ ⌊(L : ℚ) * p / 100⌋ := bar_le_floor p L (le_of_lt h)
  have hsub : ((L : ℤ) - ⌊(L : ℚ) * p / 100⌋).toNat = 0 := by omega
  have hdata : (create_progress_bar p L).data =
      List.replicate (⌊(L : ℚ) * p / 100⌋).toNat '█' := by
    show pyRepeat '█' (pyInt ((L : ℚ) * p / 100)) ++
        pyRepeat '░' ((L : ℤ) - pyInt ((L : ℚ) * p / 100)) = _
    rw [pyInt_of_nonneg _ hx0, pyRepeat, pyRepeat, hsub]
    simp
  have hlen : (create_progress_bar p L).length = (⌊(L : ℚ) * p / 100⌋).toNat := by
    show (create_progress_bar p L).data.length = _
    rw [hdata, List.length_replicate]
  exact ⟨hdata, hlen, by rw [hlen]; omega⟩

/-- Witness for the C10 amended theorem at percent 110, length 10:
eleven filled glyphs, no empty glyph, length 11 ≥ 10. -/
theorem progress_bar_over_100_witness :
    (100 : ℚ) < 110 ∧
    ((create_progress_bar 110 10).data =
      List.replicate (⌊((10 : ℕ) : ℚ) * 110 / 100⌋).toNat '█' ∧
    (create_progress_bar 110 10).length = (⌊((10 : ℕ) : ℚ) * 110 / 100⌋).toNat ∧
    10 ≤ (create_progress_bar 110 10).length) :=
  ⟨by norm_num, progress_bar_over_100 110 10 (by norm_num)⟩

/-- C1: starting from `NoActiveMessage` (`monitor_message_id = none`), a
tick whose send succeeds with id `n` stores `n`; every subsequent tick
whose fetch-and-edit succeeds performs the edit referencing that same
stored id and performs no new send; over three consecutive ticks with a
successful send on tick 1 and successful edits on ticks 2 and 3, all three
operations reference the same message id `n`. -/
theorem publisher_loop_tracks_message_id (cid n : ℕ) (hcid : cid ≠ 0) (hn : n ≠ 0)
    (e1 e2 e3 : TickEnv)
    (h1r : e1.resolves = true) (h1s : e1.sendRes = .ok n)
    (h2r : e2.resolves = true) (h2f : e2.fetchRes = .ok) (h2e : e2.editRes = .ok)
    (h3r : e3.resolves = true) (h3f : e3.fetchRes = .ok) (h3e : e3.editRes = .ok) :
    update_stats cid none e1 = ⟨some n, [.sendMsg], false⟩ ∧
    (∀ env : TickEnv, env.resolves = true → env.fetchRes = .ok → env.editRes = .ok →
      update_stats cid (some n) env = ⟨some n, [.fetchMsg n, .editMsg n], false⟩) ∧
    runTicks cid none [e1, e2, e3] =
      (some n, [[.sendMsg], [.fetchMsg n, .editMsg n], [.fetchMsg n, .editMsg n]]) := by
  have t1 : update_stats cid none e1 = ⟨some n, [.sendMsg], false⟩ := by
    simp [update_stats, hcid, h1r, h1s, pyTruthy]
  have t2 : ∀ env : TickEnv, env.resolves = true → env.fetchRes = .ok → env.editRes = .ok →
      update_stats cid (some n) env = ⟨some n, [.fetchMsg n, .editMsg n], false⟩ := by
    intro env hr hf he
    simp [update_stats, hcid, hr, hf, he, pyTruthy, hn]
  refine ⟨t1, t2, ?_⟩
  simp [runTicks, t1, t2 e2 h2r h2f h2e, t2 e3 h3r h3f h3e]

/-- Witness for C1: channel 5, message id 42, three concrete ticks. -/
theorem publisher_loop_tracks_message_id_witness :
    (5 : ℕ) ≠ 0 ∧ (42 : ℕ) ≠ 0 ∧
    (update_stats 5 none ⟨true, .ok, .ok, .ok 42⟩ = ⟨some 42, [.sendMsg], false⟩ ∧
    (∀ env : TickEnv, env.resolves = true → env.fetchRes = .ok → env.editRes = .ok →
      update_stats 5 (some 42) env = ⟨some 42, [.fetchMsg 42, .editMsg 42], false⟩) ∧
    runTicks 5 none [⟨true, .ok, .ok, .ok 42⟩, ⟨true, .ok, .ok, .ok 99⟩, ⟨true, .ok, .ok, .ok 99⟩] =
      (some 42, [[.sendMsg], [.fetchMsg 42, .editMsg 42], [.fetchMsg 42, .editMsg 42]])) :=
  ⟨by decide, by decide,
    publisher_loop_tracks_message_id 5 42 (by decide) (by decide)
      ⟨true, .ok, .ok, .ok 42⟩ ⟨true, .ok, .ok, .ok 99⟩ ⟨true, .ok, .ok, .ok 99⟩
      rfl rfl rfl rfl rfl rfl rfl rfl⟩

/-- C2: in state `HasActiveMessage(mid)`, when fetching or editing the
tracked message fails with `NotFound`, the same tick performs a send; when
that send returns a new message with id `nid`, the tracked id becomes
`nid`. -/
theorem notfound_falls_back_to_send (cid mid nid : ℕ) (env : TickEnv)
    (hcid : cid ≠ 0) (hmid : mid ≠ 0) (hr : env.resolves = true)
    (hnf : env.fetchRes = .exc .notFound ∨
      (env.fetchRes = .ok ∧ env.editRes = .exc .notFound))
    (hs : env.sendRes = .ok nid) :
    Action.sendMsg ∈ (update_stats cid (some mid) env).actions ∧
    (update_stats cid (some mid) env).state = some nid := by
  rcases hnf with hf | ⟨hf, he⟩
  · simp [update_stats, hcid, hr, hf, hs, pyTruthy, hmid]
  · simp [update_stats, hcid, hr, hf, he, hs, pyTruthy, hmid]

/-- Witness for C2: tracked message 42 vanished, recovery send returns 43. -/
theorem notfound_falls_back_to_send_witness :
    (5 : ℕ) ≠ 0 ∧ (42 : ℕ) ≠ 0 ∧
    (Action.sendMsg ∈ (update_stats 5 (some 42) ⟨true, .exc .notFound, .ok, .ok 43⟩).actions ∧
    (update_stats 5 (some 42) ⟨true, .exc .notFound, .ok, .ok 43⟩).state = some 43) :=
  ⟨by decide, by decide,
    notfound_falls_back_to_send 5 42 43 ⟨true, .exc .notFound, .ok, .ok 43⟩
      (by decide) (by decide) rfl (Or.inl rfl) rfl⟩

/-- C3: when the configured channel id is 0 (unset) or does not resolve to
a channel, the tick performs no chat-API call at all and leaves the tracked
message id unchanged. -/
theorem unresolved_channel_is_noop (cid : ℕ) (st : Option ℕ) (env : TickEnv)
    (h : cid = 0 ∨ env.resolves = false) :
    update_stats cid st env = ⟨st, [], false⟩ := by
  rcases h with h | h
  · simp [update_stats, h]
  · rcases Nat.eq_zero_or_pos cid with hc | hc
    · simp [update_stats, hc]
    · simp [update_stats, Nat.pos_iff_ne_zero.mp hc, h]

/-- Witness for C3: channel id 7 set but unresolvable; state `some 42`
untouched, no calls. -/
theorem unresolved_channel_is_noop_witness :
    ((7 : ℕ) = 0 ∨ (⟨false, .ok, .ok, .ok 1⟩ : TickEnv).resolves = false) ∧
    update_stats 7 (some 42) ⟨false, .ok, .ok, .ok 1⟩ = ⟨some 42, [], false⟩ :=
  ⟨Or.inr rfl, unresolved_channel_is_noop 7 (some 42) ⟨false, .ok, .ok, .ok 1⟩ (Or.inr rfl)⟩

/-- C4: tick failures other than edit-`NotFound` do not change the
publisher state: a failed send from `NoActiveMessage` leaves the tracked id
unset, and a fetch-or-edit failure with `Forbidden` or a generic
`HTTPException` leaves `HasActiveMessage(mid)` unchanged (and no exception
escapes the tick). -/
theorem non_notfound_failures_preserve_state (cid : ℕ) (env : TickEnv)
    (hcid : cid ≠ 0) (hr : env.resolves = true) :
    (∀ k, env.sendRes = .exc k → update_stats cid none env = ⟨none, [.sendMsg], false⟩) ∧
    (∀ (mid : ℕ) (k : ExcKind), mid ≠ 0 → k ≠ .notFound →
      (env.fetchRes = .exc k ∨ (env.fetchRes = .ok ∧ env.editRes = .exc k)) →
      (update_stats cid (some mid) env).state = some mid ∧
      (update_stats cid (some mid) env).raised = false) := by
  constructor
  · intro k hk
    simp [update_stats, hcid, hr, hk, pyTruthy]
  · intro mid k hmid hk hfail
    rcases hfail with hf | ⟨hf, he⟩
    · cases k with
      | notFound => exact absurd rfl hk
      | forbidden => simp [update_stats, hcid, hr, hf, pyTruthy, hmid]
      | httpErr => simp [update_stats, hcid, hr, hf, pyTruthy, hmid]
    · cases k with
      | notFound => exact absurd rfl hk
      | forbidden => simp [update_stats, hcid, hr, hf, he, pyTruthy, hmid]
      | httpErr => simp [update_stats, hcid, hr, hf, he, pyTruthy, hmid]

/-- Witness for C4: a forbidden send from scratch and a forbidden edit of
message 42 both leave the state as it was. -/
theorem non_notfound_failures_preserve_state_witness :
    (update_stats 5 none ⟨true, .ok, .exc .forbidden, .exc .forbidden⟩ =
      ⟨none, [.sendMsg], false⟩) ∧
    ((update_stats 5 (some 42) ⟨true, .ok, .exc .forbidden, .exc .forbidden⟩).state = some 42 ∧
    (update_stats 5 (some 42) ⟨true, .ok, .exc .forbidden, .exc .forbidden⟩).raised = false) :=
  ⟨(non_notfound_failures_preserve_state 5 ⟨true, .ok, .exc .forbidden, .exc .forbidden⟩
      (by decide) rfl).1 .forbidden rfl,
    (non_notfound_failures_preserve_state 5 ⟨true, .ok, .exc .forbidden, .exc .forbidden⟩
      (by decide) rfl).2 42 .forbidden (by decide) (by decide) (Or.inr ⟨rfl, rfl⟩)⟩

/-- C6: concrete uptime-resolver outcomes.  A primary-tool output
containing the line `Uptime: 3 days` yields `3 days`; an output with no
`Uptime:` match but containing `up 2 hours,` yields `2 hours`; when
neither pattern matches because the tool is unavailable and the platform
fallback also fails, the resolver yields the fixed unknown sentinel. -/
theorem uptime_concrete_outcomes :
    get_server_uptime ⟨.ok "OS: Ubuntu\nUptime: 3 days\nKernel: x", "Linux",
      .ok "up 9 weeks", .ok "up 9 weeks,"⟩ = .ok "3 days" ∧
    get_server_uptime ⟨.ok "host is up 2 hours, 3 users", "Linux",
      .ok "up 9 weeks", .ok "up 9 weeks,"⟩ = .ok "2 hours" ∧
    get_server_uptime ⟨.fileNotFoundError, "Linux",
      .subprocessError, .subprocessError⟩ = .ok unknownSentinel :=
  ⟨rfl, rfl, rfl⟩

/-- C7 counterexample: `neofetch` runs but its output matches neither
pattern, the platform is Linux, and `uptime -p` would succeed with
`up 5 hours, 1 user`; the claimed strategy order would try the platform
command and return `5 hours, 1 user`, but the code invokes no platform
command and returns the format-not-recognized sentinel directly. -/
theorem uptime_platform_not_tried_on_unrecognized :
    uptimeCalls ⟨.ok "no patterns here", "Linux", .ok "up 5 hours, 1 user", .subprocessError⟩ =
      [.neofetchCmd] ∧
    ExtCall.uptimeDashPCmd ∉
      uptimeCalls ⟨.ok "no patterns here", "Linux", .ok "up 5 hours, 1 user", .subprocessError⟩ ∧
    get_server_uptime ⟨.ok "no patterns here", "Linux", .ok "up 5 hours, 1 user",
      .subprocessError⟩ = .ok fmtUnknownSentinel ∧
    fmtUnknownSentinel ≠ "5 hours, 1 user" := by
  refine ⟨rfl, ?_, rfl, ?_⟩ <;> decide

/-- C7 amended: within a successful primary-tool run the `Uptime:` pattern
is tried before the `up …,`-pattern and the first success wins, but the
platform-native uptime command is never part of that sequence: when the
tool runs and its output matches neither pattern, the resolver returns the
format-not-recognized sentinel immediately, without invoking the platform
command; the platform fallback (then the final sentinel) is reached only
when the primary invocation itself raises a caught exception. -/
theorem uptime_fallback_order (env : UptimeEnv) (out : String)
    (hout : env.neofetch = .ok out) :
    (∀ g, findUptimeMatch out.data = some g → get_server_uptime env = .ok (pyStrip ⟨g⟩)) ∧
    (findUptimeMatch out.data = none → ∀ g, findUpMatch out.data = some g →
      get_server_uptime env = .ok (pyStrip ⟨g⟩)) ∧
    (findUptimeMatch out.data = none → findUpMatch out.data = none →
      get_server_uptime env = .ok fmtUnknownSentinel ∧ uptimeCalls env = [.neofetchCmd]) := by
  refine ⟨?_, ?_, ?_⟩
  · intro g hg
    simp [get_server_uptime, hout, hg]
  · intro ha g hg
    simp [get_server_uptime, hout, ha, hg]
  · intro ha hb
    simp [get_server_uptime, uptimeCalls, hout, ha, hb]

/-- Witness for the C7 amended theorem on an output matching neither
pattern: sentinel result, `neofetch` the only external call. -/
theorem uptime_fallback_order_witness :
    ((⟨.ok "no patterns here", "Linux", .ok "up 5 hours, 1 user", .subprocessError⟩ :
        UptimeEnv).neofetch = .ok "no patterns here") ∧
    (findUptimeMatch "no patterns here".data = none) ∧
    (findUpMatch "no patterns here".data = none) ∧
    (get_server_uptime ⟨.ok "no patterns here", "Linux", .ok "up 5 hours, 1 user",
        .subprocessError⟩ = .ok fmtUnknownSentinel ∧
      uptimeCalls ⟨.ok "no patterns here", "Linux", .ok "up 5 hours, 1 user",
        .subprocessError⟩ = [.neofetchCmd]) :=
  ⟨rfl, rfl, rfl,
    (uptime_fallback_order
      ⟨.ok "no patterns here", "Linux", .ok "up 5 hours, 1 user", .subprocessError⟩
      "no patterns here" rfl).2.2 rfl rfl⟩

/-- C9 counterexample: when the `neofetch` invocation raises an exception
that is neither a `subprocess.SubprocessError` nor a `FileNotFoundError`
(e.g. a `PermissionError` because the tool file is not executable), no
handler catches it and the resolver propagates it instead of returning a
string. -/
theorem uptime_propagates_uncaught_exception :
    get_server_uptime ⟨.otherError, "Linux", .ok "up 5 hours", .ok "up 5 hours,"⟩ =
      .error () :=
  rfl

/-- C9 amended: the resolver returns a string for every outcome in which
the primary invocation succeeds (with arbitrary, possibly empty or
unparsable output) or raises one of the two caught exception classes —
failures of the platform fallback commands of any kind are all caught —
but an exception of any other class from the primary invocation
propagates to the caller. -/
theorem uptime_total_unless_uncaught (env : UptimeEnv)
    (h : env.neofetch ≠ .otherError) :
    ∃ s, get_server_uptime env = .ok s := by
  cases henv : env.neofetch with
  | ok out =>
    cases ha : findUptimeMatch out.data with
    | some g => exact ⟨pyStrip ⟨g⟩, by simp [get_server_uptime, henv, ha]⟩
    | none =>
      cases hb : findUpMatch out.data with
      | some g => exact ⟨pyStrip ⟨g⟩, by simp [get_server_uptime, henv, ha, hb]⟩
      | none => exact ⟨fmtUnknownSentinel, by simp [get_server_uptime, henv, ha, hb]⟩
  | subprocessError => exact ⟨uptimeFallback env, by simp [get_server_uptime, henv]⟩
  | fileNotFoundError => exact ⟨uptimeFallback env, by simp [get_server_uptime, henv]⟩
  | otherError => exact absurd henv h

/-- Witness for the C9 amended theorem: missing tool on an unrecognized
platform still yields a string. -/
theorem uptime_total_unless_uncaught_witness :
    ((⟨.fileNotFoundError, "Plan9", .ok "", .ok ""⟩ : UptimeEnv).neofetch ≠ .otherError) ∧
    ∃ s, get_server_uptime ⟨.fileNotFoundError, "Plan9", .ok "", .ok ""⟩ = .ok s :=
  ⟨by decide, uptime_total_unless_uncaught ⟨.fileNotFoundError, "Plan9", .ok "", .ok ""⟩
    (by decide)⟩

/-- C8 counterexample: the full-stats embed (`create_stats_embed`, line
166) and the `!cpu` embed (line 276) are built with the same accent color
`0x1E90FF`, so two distinct modes share a color constant. -/
theorem full_and_cpu_share_color :
    Mode.full ≠ Mode.cpu ∧ embedColor .full = embedColor .cpu :=
  ⟨by decide, rfl⟩

/-- C8 amended: the embed constructors assign `full` and `cpu` the same
color `0x1E90FF` and every other pair of distinct modes different colors;
only after the `!stats` command overrides the full embed's color to
`0x32CD32` are the displayed reply colors pairwise distinct. -/
theorem mode_colors_distinct_after_override (m1 m2 : Mode) (h : m1 ≠ m2) :
    commandReplyColor m1 ≠ commandReplyColor m2 ∧
    (embedColor m1 = embedColor m2 ↔
      (m1 = .full ∧ m2 = .cpu) ∨ (m1 = .cpu ∧ m2 = .full)) := by
  revert h
  cases m1 <;> cases m2 <;> decide

/-- Witness for the C8 amended theorem at the pair (memory, disk). -/
theorem mode_colors_distinct_after_override_witness :
    Mode.memory ≠ Mode.disk ∧
    (commandReplyColor .memory ≠ commandReplyColor .disk ∧
    (embedColor .memory = embedColor .disk ↔
      (Mode.memory = .full ∧ Mode.disk = .cpu) ∨
        (Mode.memory = .cpu ∧ Mode.disk = .full))) :=
  ⟨by decide, mode_colors_distinct_after_override .memory .disk (by decide)⟩

end ServerMonitor
